import Mathlib

/-!
Verification of the Web-ChatGPT-API Chrome addon's message-routing and
completion-detection code.  The definitions below are shallow embeddings of
the JavaScript in `chrome-addon/content.js` and `chrome-addon/background.js`:
DOM snapshots become structures, the mutable closure variables of
`startObservingResponses` become an explicit state record, and the check
function `checkForNewAssistantMessage` becomes a state-transition function.
Text extracted from the page (`innerText`) is modelled as `List Char`.
-/

set_option maxRecDepth 8192

namespace ChatGPTAddon

/-- The object returned by `extractGeneratedImage` (content.js 97-101):
`{ url, base64, alt }`. -/
structure GenImage where
  url : List Char
  base64 : List Char
  alt : List Char
deriving DecidableEq

/-- Snapshot of the newest `article[data-turn="assistant"]` element, as probed
by `checkForNewAssistantMessage` (content.js 143-283):
* `hasLoadingShimmer` — a `.loading-shimmer` descendant exists (line 161);
* `markdown` — the `innerText` of the `.markdown` descendant, if present
  (lines 156, 186);
* `lastNode` — a `[data-is-last-node]` descendant exists inside the markdown
  content (line 173; meaningless when `markdown` is absent, and the code's
  `markdownContent?.querySelector` guard makes the effective flag the
  conjunction with `markdown.isSome`);
* `hasImageContainer` — a `[class*="group/imagegen-image"]` descendant exists
  (line 177);
* `generatedImage` — the value `extractGeneratedImage` resolves to for this
  element (content.js 30-106): `some` image data or `none`. -/
structure MsgSnapshot where
  hasLoadingShimmer : Bool
  markdown : Option (List Char)
  lastNode : Bool
  hasImageContainer : Bool
  generatedImage : Option GenImage
deriving DecidableEq

/-- One DOM observation: the current number of assistant articles
(`assistantMessages.length`, line 144) together with the snapshot of the last
one (line 152; only consulted when `count` exceeds the baseline). -/
structure Obs where
  count : Nat
  msg : MsgSnapshot
deriving DecidableEq

/-- The stability-tracking closure variables of `startObservingResponses`
(content.js 137-138): `lastResponseText` (null ↦ `none`) and
`stableCheckCount`. -/
structure Track where
  last : Option (List Char)
  count : Nat
deriving DecidableEq

/-- Length of JavaScript `text.trim()` (content.js 187): characters remaining
after stripping leading and trailing whitespace. -/
def jsTrimLen (l : List Char) : Nat :=
  (((l.dropWhile Char.isWhitespace).reverse.dropWhile Char.isWhitespace).reverse).length

/-- The two things `sendResponseCallback` is ever invoked with: the success
object built at content.js 235-253, or the timed-out error object of
content.js 355-358. -/
inductive Emit where
  | success (text : List Char) (image : Option GenImage)
  | timeoutErr
deriving DecidableEq

/-- Local variables of `checkForNewAssistantMessage` captured across the
`await extractGeneratedImage(newMessage)` suspension point (content.js 205):
the extracted `responseText` and the effective `lastNode` flag. -/
structure Pending where
  text : List Char
  lastNode : Bool
deriving DecidableEq

/-- Result of the synchronous first phase of `checkForNewAssistantMessage`:
either the function returned (with a boolean) before reaching the `await`, or
it suspended at the `await` with captured locals. -/
inductive P1Res where
  | done (b : Bool)
  | suspend (p : Pending)
deriving DecidableEq

/-- The part of `checkForNewAssistantMessage` (content.js 143-283) up to the
`await extractGeneratedImage` suspension point, as a function of the closure
state `t`.  Every path before the stability threshold is synchronous:
* no new assistant message (line 151 fails) — return false, state untouched;
* loading shimmer present (lines 161-170) — reset tracking, return false;
* completion markers absent (lines 266-277) — reset tracking, return false;
* content changed (lines 256-265) — record text, zero the counter, false;
* content matched but counter below 3 (lines 191-198) — bump counter, false;
* counter reached 3 (line 198) — suspend at the `await` of line 205. -/
def checkPhase1 (init : Nat) (o : Obs) (t : Track) : Track × P1Res :=
  if init < o.count then
    if o.msg.hasLoadingShimmer then (⟨none, 0⟩, .done false)
    else if (o.msg.markdown.isSome && o.msg.lastNode) || o.msg.hasImageContainer then
      let text := o.msg.markdown.getD []
      if t.last = some text then
        let c := t.count + 1
        if 3 ≤ c then (⟨t.last, c⟩, .suspend ⟨text, o.msg.markdown.isSome && o.msg.lastNode⟩)
        else (⟨t.last, c⟩, .done false)
      else (⟨some text, 0⟩, .done false)
    else (⟨none, 0⟩, .done false)
  else (t, .done false)

/-- The part of `checkForNewAssistantMessage` after the `await` (content.js
209-254), given the resolved image: if the trimmed text is empty and there is
no image, both branches of lines 209-224 `return false` without touching the
tracking state; otherwise `stopObservingResponses()` runs and the success
object is sent.  Returns (emissions, teardown-performed, returned boolean). -/
def checkPhase2 (p : Pending) (img : Option GenImage) : List Emit × Bool × Bool :=
  if jsTrimLen p.text = 0 ∧ img = none then ([], false, false)
  else ([.success p.text img], true, true)

/-- One complete, non-interleaved run of `checkForNewAssistantMessage`:
phase 1, and — if it reached the `await` — phase 2 with the image that
`extractGeneratedImage` resolves to for this snapshot.  Returns the updated
tracking state, the emissions, and the function's boolean result. -/
def checkStep (init : Nat) (o : Obs) (t : Track) : Track × List Emit × Bool :=
  match checkPhase1 init o t with
  | (t', .done b) => (t', [], b)
  | (t', .suspend p) =>
    let r := checkPhase2 p o.msg.generatedImage
    (t', r.1, r.2.2)

/-- A sequence of complete check invocations (any mix of the debounce path
and the polling path triggers the same function on the shared closure state),
starting from the fresh state `lastResponseText = null`, `stableCheckCount =
0`, collecting every emission. -/
def checksRun (init : Nat) (l : List Obs) : Track × List Emit :=
  l.foldl
    (fun (acc : Track × List Emit) o =>
      let r := checkStep init o acc.1
      (r.1, acc.2 ++ r.2.1))
    (⟨none, 0⟩, [])

/-- State of one `startObservingResponses` invocation as driven by the
1-second polling fallback (content.js 341-363): the tracking state, whether
the MutationObserver is still attached, whether the poll interval is still
set, `timeoutAttempts`, and everything sent to `sendResponseCallback` so
far. -/
structure DetState where
  track : Track
  observerActive : Bool
  intervalActive : Bool
  attempts : Nat
  emitted : List Emit
deriving DecidableEq

/-- State right after `startObservingResponses` attaches its observer and
poll interval. -/
def detInit : DetState := ⟨⟨none, 0⟩, true, true, 0, []⟩

/-- One tick of the polling fallback (content.js 341-360), with the check run
to completion: increment `timeoutAttempts`, run the check; a true result
clears the interval (the check itself already ran `stopObservingResponses`);
otherwise, once `timeoutAttempts` reaches `MAX_TIMEOUT_ATTEMPTS = 60`, the
interval is cleared, observation is torn down and the timed-out error is
sent. -/
def pollTick (init : Nat) (o : Obs) (s : DetState) : DetState :=
  if s.intervalActive then
    let a := s.attempts + 1
    let r := checkStep init o s.track
    if r.2.2 then ⟨r.1, false, false, a, s.emitted ++ r.2.1⟩
    else if 60 ≤ a then ⟨r.1, false, false, a, s.emitted ++ r.2.1 ++ [.timeoutErr]⟩
    else ⟨r.1, s.observerActive, s.intervalActive, a, s.emitted ++ r.2.1⟩
  else s

/-- Fold the polling fallback over a list of successive DOM observations. -/
def pollRun (init : Nat) (l : List Obs) (s : DetState) : DetState :=
  l.foldl (fun st o => pollTick init o st) s

/-- `stopObservingResponses` (content.js 366-380) on its two globals
`responseObserver` and `responseTimeout`; the observer handle carries the
`pollInterval` property attached at line 363. -/
structure ObserverHandle where
  pollInterval : Option Nat
deriving DecidableEq

/-- The globals touched by `stopObservingResponses`. -/
structure ContentObsState where
  responseObserver : Option ObserverHandle
  responseTimeout : Option Nat
deriving DecidableEq

/-- Externally visible teardown effects of `stopObservingResponses`. -/
inductive TDAction where
  | disconnectObserver
  | clearPollInterval
  | clearDebounceTimeout
deriving DecidableEq

/-- `stopObservingResponses` (content.js 366-380): everything is guarded by
`if (responseObserver)`; when it is set, the observer is disconnected, its
poll interval (if set) is cleared, both globals are nulled and the debounce
timeout is cleared.  When it is null, nothing at all happens. -/
def stopObservingModel (s : ContentObsState) : ContentObsState × List TDAction :=
  match s.responseObserver with
  | some ob =>
    (⟨none, none⟩,
      .disconnectObserver ::
        ((match ob.pollInterval with
          | some _ => [.clearPollInterval]
          | none => []) ++ [.clearDebounceTimeout]))
  | none => (s, [])

/-! ### Interleaved execution of the two triggering paths

`checkForNewAssistantMessage` is `async` and suspends at
`await extractGeneratedImage(newMessage)` (content.js 205).  While that fetch
is pending the event loop keeps running, so the debounced mutation path
(content.js 304-306, 321-323) and the 1-second poll (content.js 341-360) can
start further invocations of the same function on the same closure state.  A
suspended invocation's continuation runs later and does not re-check whether
observation was torn down in the meantime. -/

/-- Which caller is awaiting a suspended check: the debounce `setTimeout`
callback (which ignores the result) or the poll interval callback (which runs
the clear-interval/timeout logic of content.js 345-359 afterwards). -/
inductive Tag where
  | debounce
  | poll
deriving DecidableEq

/-- A check invocation suspended at the `await`: its captured locals, the
image its `extractGeneratedImage` call will resolve to, and its caller. -/
structure PendEntry where
  p : Pending
  img : Option GenImage
  tag : Tag
deriving DecidableEq

/-- State of one `startObservingResponses` invocation under interleaved
execution: the closure state, liveness of the observer / interval, the
attempt counter, the suspended invocations, and all emissions so far. -/
structure CState where
  track : Track
  obsActive : Bool
  intActive : Bool
  attempts : Nat
  pending : List PendEntry
  emitted : List Emit
deriving DecidableEq

/-- Fresh interleaved state right after `startObservingResponses`. -/
def cInit : CState := ⟨⟨none, 0⟩, true, true, 0, [], []⟩

/-- Scheduler events: the debounce timer fires with the current DOM snapshot,
a poll tick fires, or the `await` of the `i`-th suspended invocation
resolves. -/
inductive Ev where
  | debounceFire (o : Obs)
  | pollFire (o : Obs)
  | resume (i : Nat)

/-- One scheduler event.  A debounce fire only happens while the observer is
attached (teardown clears both the observer and any scheduled debounce
timeout, content.js 369-377); a poll fire only happens while the interval is
set.  A resumed continuation, however, runs unconditionally: the JavaScript
code after the `await` never re-checks liveness, so it may emit after another
invocation already tore everything down. -/
def cstep (init : Nat) (s : CState) : Ev → CState
  | .debounceFire o =>
    if s.obsActive then
      match checkPhase1 init o s.track with
      | (t, .done _) => { s with track := t }
      | (t, .suspend p) =>
        { s with track := t, pending := s.pending ++ [⟨p, o.msg.generatedImage, .debounce⟩] }
    else s
  | .pollFire o =>
    if s.intActive then
      let a := s.attempts + 1
      match checkPhase1 init o s.track with
      | (t, .suspend p) =>
        { s with track := t, attempts := a,
                 pending := s.pending ++ [⟨p, o.msg.generatedImage, .poll⟩] }
      | (t, .done b) =>
        if b then ⟨t, s.obsActive, false, a, s.pending, s.emitted⟩
        else if 60 ≤ a then ⟨t, false, false, a, s.pending, s.emitted ++ [.timeoutErr]⟩
        else { s with track := t, attempts := a }
    else s
  | .resume i =>
    match s.pending[i]? with
    | none => s
    | some e =>
      let r := checkPhase2 e.p e.img
      let s1 : CState :=
        ⟨s.track, s.obsActive && !r.2.1, s.intActive && !r.2.1, s.attempts,
          s.pending.eraseIdx i, s.emitted ++ r.1⟩
      match e.tag with
      | .debounce => s1
      | .poll =>
        if r.2.2 then { s1 with intActive := false }
        else if 60 ≤ s1.attempts then
          ⟨s1.track, false, false, s1.attempts, s1.pending, s1.emitted ++ [.timeoutErr]⟩
        else s1

/-- Run the interleaved machine on a list of scheduler events from the fresh
state. -/
def crun (init : Nat) (evs : List Ev) : CState :=
  evs.foldl (cstep init) cInit

/-! ### Background script: message routing (background.js) -/

/-- The `data` field of an instruction Channel Message: either a bare string
(legacy format) or an object with a prompt and optional image / session
flags.  Absent JavaScript fields are `none`. -/
inductive JSData where
  | str (s : String)
  | obj (prompt : String) (image : Option String)
      (startNewChat : Option Bool) (useTemporaryChat : Option Bool)
deriving DecidableEq

/-- The normalization both routing layers apply (background.js 102-103,
content.js 786): `typeof data === 'string' ? { prompt: data } : data`. -/
def normalizeData : JSData → JSData
  | .str s => .obj s none none none
  | d => d

/-- The parameters the content-script listener actually extracts from an
instruction (content.js 786-791): the prompt, the optional image, and the
session flags with `!== undefined ? given : true` defaulting. -/
structure PromptParams where
  prompt : String
  image : Option String
  startNewChat : Bool
  useTemporaryChat : Bool
deriving DecidableEq

/-- Parameter extraction of the content-script `execute_prompt` handler
(content.js 784-791). -/
def contentParams (d : JSData) : PromptParams :=
  match normalizeData d with
  | .str s => ⟨s, none, true, true⟩
  | .obj p img sn tc => ⟨p, img, sn.getD true, tc.getD true⟩

/-- Environment of one `websocket.onmessage` prompt dispatch
(background.js 39-128):
* `tabs` — ids returned by `chrome.tabs.query({url: 'https://chatgpt.com/*'})`;
* `createResult` — `some id` if `chrome.tabs.create` succeeds, `none` if it
  throws;
* `loadCompletedWithin30s` — whether the `onUpdated` 'complete' listener fired
  before the 30-second fallback timer (background.js 64-82; both call
  `resolve()`, so this flag does not influence the subsequent behavior);
* `contentReachable` — whether `chrome.tabs.sendMessage` reaches a content
  script (its `.catch` fires otherwise, background.js 111-127). -/
structure RouterEnv where
  tabs : List Nat
  createResult : Option Nat
  loadCompletedWithin30s : Bool
  contentReachable : Bool
deriving DecidableEq

/-- Externally visible actions of the background dispatch. -/
inductive RAction where
  | focusWindow (tab : Nat)
  | activateTab (tab : Nat)
  | wsSendError (id : String) (text : String)
  | forwardPrompt (tab : Nat) (id : String) (data : JSData)
deriving DecidableEq

/-- Forwarding the prompt to a target tab (background.js 98-127): normalize
the data, `chrome.tabs.sendMessage`; if the content script is unreachable the
`.catch` sends the error result Channel Message. -/
def forwardTo (env : RouterEnv) (tab : Nat) (id : String) (d : JSData) : List RAction :=
  let md := normalizeData d
  if env.contentReachable then [.forwardPrompt tab id md]
  else
    [.forwardPrompt tab id md,
      .wsSendError id "Could not connect to the content script. The page may still be loading."]

/-- The prompt branch of `websocket.onmessage` (background.js 39-128).  With
an existing tab: focus and forward.  With none: create a tab; on a creation
exception, send the error result and stop; on success, wait — the wait's
promise resolves on the tab's 'complete' event and on the 30-second fallback
alike (background.js 64-82) — and then forward regardless of
`loadCompletedWithin30s`. -/
def handlePrompt (env : RouterEnv) (id : String) (d : JSData) : List RAction :=
  match env.tabs with
  | t :: _ => .focusWindow t :: .activateTab t :: forwardTo env t id d
  | [] =>
    match env.createResult with
    | none => [.wsSendError id "Failed to create ChatGPT tab."]
    | some t => forwardTo env t id d

/-! ### Connection Gateway: close handling (background.js 137-144) -/

/-- Whether `keepAliveInterval` is currently set. -/
structure GwState where
  keepAlive : Bool
deriving DecidableEq

/-- Externally visible actions of `websocket.onclose`. -/
inductive GwAction where
  | clearKeepAlive
  | scheduleReconnect (delayMs : Nat)
deriving DecidableEq

/-- `websocket.onclose` (background.js 137-144): clear the keep-alive
interval when set, null it, and schedule `connectWebSocket` after a fixed
5000 ms — unconditionally, with no attempt counter or backoff state. -/
def onClose (s : GwState) : GwState × List GwAction :=
  (⟨false⟩, (if s.keepAlive then [.clearKeepAlive] else []) ++ [.scheduleReconnect 5000])

/-- Recognizes the action of scheduling a reconnect with the fixed
5-second delay. -/
def isReconnect5000 : GwAction → Bool
  | .scheduleReconnect d => d = 5000
  | _ => false

/-- The action trace of `n` successive connection closures: each scheduled
reconnect runs `connectWebSocket`, which installs the same `onclose` handler
again, so every further closure is handled identically. -/
def closeTrace : Nat → GwState → List GwAction
  | 0, _ => []
  | n + 1, s => (onClose s).2 ++ closeTrace n (onClose s).1

/-! ### Media payload encoding (content.js 5-27, 90-101)

`downloadImageAsBase64` fetches the image bytes, lets a `FileReader` render
them as a `data:image/<subtype>;base64,<payload>` URL, and strips the prefix
with `replace(/^data:image\/\w+;base64,/, '')`.  The base64 payload follows
RFC 4648 (standard alphabet, `=` padding), which is what `readAsDataURL`
produces; `b64Decode` below is that encoding's standard inverse, used to
state the spec's losslessness property.  Bytes are `Nat`s below 256. -/

/-- The standard base64 alphabet. -/
def b64Alphabet : List Char :=
  ['A', 'B', 'C', 'D', 'E', 'F', 'G', 'H', 'I', 'J', 'K', 'L', 'M',
   'N', 'O', 'P', 'Q', 'R', 'S', 'T', 'U', 'V', 'W', 'X', 'Y', 'Z',
   'a', 'b', 'c', 'd', 'e', 'f', 'g', 'h', 'i', 'j', 'k', 'l', 'm',
   'n', 'o', 'p', 'q', 'r', 's', 't', 'u', 'v', 'w', 'x', 'y', 'z',
   '0', '1', '2', '3', '4', '5', '6', '7', '8', '9', '+', '/']

/-- Digit value `n` (0 ≤ n < 64) to its base64 character. -/
def b64Char (n : Nat) : Char := b64Alphabet.getD n 'A'

/-- Base64 character back to its digit value. -/
def b64Index (c : Char) : Option Nat := b64Alphabet.findIdx? (fun x => x = c)

/-- RFC 4648 base64 encoding of a byte list, processed three bytes at a
time, with `=` padding for a trailing one- or two-byte group. -/
def b64Encode : List Nat → List Char
  | [] => []
  | [b1] => [b64Char (b1 / 4), b64Char (b1 % 4 * 16), '=', '=']
  | [b1, b2] => [b64Char (b1 / 4), b64Char (b1 % 4 * 16 + b2 / 16), b64Char (b2 % 16 * 4), '=']
  | b1 :: b2 :: b3 :: rest =>
    b64Char (b1 / 4) :: b64Char (b1 % 4 * 16 + b2 / 16) ::
      b64Char (b2 % 16 * 4 + b3 / 64) :: b64Char (b3 % 64) :: b64Encode rest

/-- RFC 4648 base64 decoding, four characters at a time, honouring `=`
padding in the final group; `none` on malformed input. -/
def b64Decode : List Char → Option (List Nat)
  | [] => some []
  | c1 :: c2 :: c3 :: c4 :: rest =>
    (b64Index c1).bind fun n1 =>
      (b64Index c2).bind fun n2 =>
        if c3 = '=' then
          if c4 = '=' ∧ rest = [] then some [n1 * 4 + n2 / 16] else none
        else
          (b64Index c3).bind fun n3 =>
            if c4 = '=' then
              if rest = [] then some [n1 * 4 + n2 / 16, n2 % 16 * 16 + n3 / 4] else none
            else
              (b64Index c4).bind fun n4 =>
                (b64Decode rest).map fun bs =>
                  (n1 * 4 + n2 / 16) :: (n2 % 16 * 16 + n3 / 4) :: (n3 % 4 * 64 + n4) :: bs
  | _ => none

/-- The characters `data:image/` opening a `FileReader` image data URL. -/
def dataUrlHeadChars : List Char := ['d', 'a', 't', 'a', ':', 'i', 'm', 'a', 'g', 'e', '/']

/-- The characters `;base64,` separating the MIME subtype from the
payload. -/
def base64MarkerChars : List Char := [';', 'b', 'a', 's', 'e', '6', '4', ',']

/-- A regex `\w` character: alphanumeric or underscore. -/
def isWordChar (c : Char) : Bool := c.isAlphanum || c = '_'

/-- Match an expected character sequence at the front of `l`, returning the
remainder on success. -/
def stripLit : List Char → List Char → Option (List Char)
  | [], l => some l
  | _ :: _, [] => none
  | p :: ps, c :: cs => if c = p then stripLit ps cs else none

/-- The `replace(/^data:image\/\w+;base64,/, '')` of content.js 17: when the
string starts with `data:image/`, one or more word characters, and
`;base64,`, drop that whole prefix; otherwise return the string unchanged. -/
def stripDataUrl (l : List Char) : List Char :=
  match stripLit dataUrlHeadChars l with
  | none => l
  | some r1 =>
    match r1.takeWhile isWordChar with
    | [] => l
    | _ :: _ =>
      match stripLit base64MarkerChars (r1.dropWhile isWordChar) with
      | none => l
      | some payload => payload

/-- The data URL `FileReader.readAsDataURL` renders for fetched image bytes
of MIME type `image/<mimeSub>`. -/
def readAsDataURLModel (mimeSub : List Char) (bytes : List Nat) : List Char :=
  dataUrlHeadChars ++ mimeSub ++ base64MarkerChars ++ b64Encode bytes

/-- `downloadImageAsBase64` (content.js 5-27) on the fetched bytes: render
the data URL and strip its prefix, leaving the bare base64 payload that
`extractGeneratedImage` places in the `base64` field of the reply
(content.js 90-101). -/
def downloadImageAsBase64Model (mimeSub : List Char) (bytes : List Nat) : List Char :=
  stripDataUrl (readAsDataURLModel mimeSub bytes)

/-- A qualifying text observation: one new assistant message whose markdown
content reads `t`, carrying the `data-is-last-node` marker, with no loading
shimmer and no image. -/
def qObs (t : List Char) : Obs := ⟨1, ⟨false, some t, true, false, none⟩⟩

/-- An image-bearing observation: one new assistant message with text `X`,
image container present, whose `extractGeneratedImage` resolves to a
payload. -/
def imgObs : Obs := ⟨1, ⟨false, some ['X'], false, true, some ⟨['u'], ['Q', 'Q'], ['a']⟩⟩⟩

/-- A scheduler interleaving in which the poll tick that reaches the
stability threshold suspends at its image fetch, a debounce-triggered check
also passes the threshold and suspends, and both continuations then
resolve. -/
def raceTrace : List Ev :=
  [.debounceFire imgObs, .pollFire imgObs, .pollFire imgObs, .pollFire imgObs,
   .debounceFire imgObs, .resume 0, .resume 0]

/-- A stabilized-but-empty observation: new assistant message, final-node
marker present, markdown text empty, no image. -/
def emptyObs : Obs := ⟨1, ⟨false, some [], true, false, none⟩⟩

/-! ## Claim theorems -/

/-- Claim C1 (counterexample).  The claim asserts that for the observation
sequence "A","AB","AB","AB" the detector reaches `Done` with value "AB" upon
the third "AB" observation.  In fact, running `checkForNewAssistantMessage`
on exactly that sequence of qualifying observations emits nothing at all:
after the third "AB" the stability counter stands at 2, below the
`STABLE_CHECKS_REQUIRED = 3` threshold, because the counter is zero when a
text is first recorded and counts only the subsequent identical checks. -/
theorem c1_counterexample :
    (checksRun 0 [qObs ['A'], qObs ['A', 'B'], qObs ['A', 'B'], qObs ['A', 'B']]).2 = [] ∧
    (checksRun 0 [qObs ['A'], qObs ['A', 'B'], qObs ['A', 'B'], qObs ['A', 'B']]).1 =
      ⟨some ['A', 'B'], 2⟩ := by
  constructor <;> decide

/-- Claim C1 (amended).  The detector emits a success outcome only after the
extracted reply content has been identical across 3 consecutive checks beyond
the check that first recorded it (that is, on the 4th consecutive sighting of
the same content, when the consecutive-match counter reaches 3), and it
resets the counter to zero whenever an extraction differs from the previous
one; for the sequence "A","AB","AB","AB","AB" it reaches `Done` with value
"AB" upon the fourth "AB" observation, and emits nothing on the sequence
"A","AB","AB","AB". -/
theorem c1_amended :
    (checksRun 0
        [qObs ['A'], qObs ['A', 'B'], qObs ['A', 'B'], qObs ['A', 'B'], qObs ['A', 'B']]).2 =
      [.success ['A', 'B'] none] ∧
    (checksRun 0 [qObs ['A'], qObs ['A', 'B'], qObs ['A', 'B'], qObs ['A', 'B']]).2 = [] ∧
    (∀ (init : Nat) (o : Obs) (t : Track) (text : List Char),
      init < o.count → o.msg.hasLoadingShimmer = false → o.msg.markdown = some text →
      o.msg.lastNode = true → ¬ t.last = some text →
      (checkStep init o t).1 = ⟨some text, 0⟩ ∧ (checkStep init o t).2.1 = []) := by
  refine ⟨by decide, by decide, ?_⟩
  intro init o t text h1 h2 h3 h4 h5
  simp [checkStep, checkPhase1, h1, h2, h3, h4, h5]

/-- Witness for the amended C1: a concrete differing extraction resets the
tracking state and emits nothing. -/
theorem c1_amended_witness :
    (checkStep 0 (qObs ['Z']) ⟨some ['A'], 5⟩).1 = ⟨some ['Z'], 0⟩ ∧
    (checkStep 0 (qObs ['Z']) ⟨some ['A'], 5⟩).2.1 = [] :=
  c1_amended.2.2 0 (qObs ['Z']) ⟨some ['A'], 5⟩ ['Z'] (by decide) rfl rfl rfl (by decide)

/-- Claim C2.  Evaluation of the interleaved machine at `raceTrace`: an
image-bearing reply passes the stability threshold in a poll-tick check,
which suspends at its `await extractGeneratedImage` fetch; a debounced check
fires during the fetch, also passes the threshold and suspends; both
continuations then resolve, and each one runs `stopObservingResponses` and
`sendResponseCallback`, so the callback of this single
`startObservingResponses` invocation receives TWO success reports — the
claimed at-most-once-terminal guarantee fails. -/
theorem c2_double_report :
    (crun 0 raceTrace).emitted =
      [.success ['X'] (some ⟨['u'], ['Q', 'Q'], ['a']⟩),
       .success ['X'] (some ⟨['u'], ['Q', 'Q'], ['a']⟩)] := by
  decide

/-- Claim C4 (counterexample).  The claim asserts that a qualifying
final-node unit stabilizing with zero extractable content and no media makes
the detector emit a Failed outcome with an "empty response" reason, distinct
from timeout.  In fact, on 60 polling checks of exactly such a unit — which
does stabilize (the counter passes 3 from the fourth check on) — the only
thing ever sent to the callback is the generic timed-out error:
`checkForNewAssistantMessage` merely logs and returns false at content.js
209-215, and content.js contains no empty-response emission at all. -/
theorem c4_counterexample :
    (pollRun 0 (List.replicate 60 emptyObs) detInit).emitted = [.timeoutErr] ∧
    (pollRun 0 (List.replicate 4 emptyObs) detInit).track = ⟨some [], 3⟩ := by
  constructor <;> decide

/-- Claim C4 (amended).  When a qualifying final-node unit stabilizes with
zero extractable text and no media, the check emits nothing and returns
false, leaving the stability tracking in place (the counter keeps growing);
the detector consequently reports only the generic Timeout outcome once the
60-cycle polling budget is exhausted — no distinct "empty response" outcome
exists. -/
theorem c4_amended :
    (∀ (init : Nat) (o : Obs) (t : Track) (text : List Char),
      init < o.count → o.msg.hasLoadingShimmer = false → o.msg.markdown = some text →
      o.msg.lastNode = true → o.msg.generatedImage = none → jsTrimLen text = 0 →
      t.last = some text → 2 ≤ t.count →
      checkStep init o t = (⟨some text, t.count + 1⟩, [], false)) ∧
    (pollRun 0 (List.replicate 60 emptyObs) detInit).emitted = [.timeoutErr] ∧
    (pollRun 0 (List.replicate 60 emptyObs) detInit).observerActive = false ∧
    (pollRun 0 (List.replicate 60 emptyObs) detInit).intervalActive = false := by
  refine ⟨?_, by decide, by decide, by decide⟩
  intro init o t text h1 h2 h3 h4 h5 h6 h7 h8
  have h9 : (3 : Nat) ≤ t.count + 1 := by omega
  simp [checkStep, checkPhase1, checkPhase2, h1, h2, h3, h4, h5, h6, h7, h9]

/-- Witness for the amended C4: the concrete stabilized-empty check emits
nothing, returns false, and increments the counter. -/
theorem c4_amended_witness :
    checkStep 0 emptyObs ⟨some [], 2⟩ = (⟨some [], 3⟩, [], false) :=
  c4_amended.1 0 emptyObs ⟨some [], 2⟩ [] (by decide) rfl rfl rfl rfl rfl rfl (by decide)

/-- Claim C5.  Whenever the newest observed assistant unit carries a
loading shimmer (a transient in-progress placeholder), the check resets the
stability tracking — `lastResponseText` to null and the consecutive-match
counter to zero — emits nothing and returns false, regardless of any prior
tracking state: the placeholder can neither enter the stabilizing phase nor
produce a success outcome. -/
theorem c5_shimmer_resets (init : Nat) (o : Obs) (t : Track)
    (h1 : init < o.count) (h2 : o.msg.hasLoadingShimmer = true) :
    checkStep init o t = (⟨none, 0⟩, [], false) := by
  simp [checkStep, checkPhase1, h1, h2]

/-- Witness for C5 at a concrete shimmer observation and a live tracking
state. -/
theorem c5_shimmer_resets_witness :
    checkStep 0 ⟨1, ⟨true, some ['A'], true, false, none⟩⟩ ⟨some ['A'], 2⟩ =
      (⟨none, 0⟩, [], false) :=
  c5_shimmer_resets 0 ⟨1, ⟨true, some ['A'], true, false, none⟩⟩ ⟨some ['A'], 2⟩ (by decide) rfl

/-- A check that returns false emits nothing: every `return false` path of
`checkForNewAssistantMessage` leaves `sendResponseCallback` untouched. -/
theorem checkStep_no_emit (init : Nat) (o : Obs) (t : Track)
    (h : (checkStep init o t).2.2 = false) : (checkStep init o t).2.1 = [] := by
  unfold checkStep at h ⊢
  rcases hp : checkPhase1 init o t with ⟨t', r⟩
  rw [hp] at h
  cases r with
  | done b => rfl
  | suspend p =>
    rcases Decidable.em (jsTrimLen p.text = 0 ∧ o.msg.generatedImage = none) with hc | hc
    · simp [checkPhase2, hc]
    · simp [checkPhase2, hc] at h

/-- "No qualifying stabilized reply is detected during this polling window":
along the run of poll cycles over `l`, each cycle's
`checkForNewAssistantMessage` — evaluated on the tracking state it actually
sees — returns false.  This covers a page with no new assistant message, a
reply that keeps changing, a persistent loading shimmer, a missing
completion marker, or a reply stabilizing with no content, alike. -/
def noDetection (init : Nat) : List Obs → DetState → Bool
  | [], _ => true
  | o :: l', s => !(checkStep init o s.track).2.2 && noDetection init l' (pollTick init o s)

/-- Driving the polling fallback through a window in which no check ever
detects a stabilized reply: once `timeoutAttempts` fills the budget of 60,
the interval is cleared, observation is torn down, and exactly the timed-out
error has been emitted. -/
theorem pollRun_times_out (init : Nat) (l : List Obs) :
    ∀ s : DetState, noDetection init l s = true →
      s.intervalActive = true → s.observerActive = true → s.emitted = [] →
      s.attempts + l.length = 60 → l ≠ [] →
      (pollRun init l s).emitted = [.timeoutErr] ∧
      (pollRun init l s).intervalActive = false ∧
      (pollRun init l s).observerActive = false ∧
      (pollRun init l s).attempts = 60 := by
  induction l with
  | nil => intro s _ _ _ _ _ hne; exact absurd rfl hne
  | cons o l' ih =>
    intro s hnd hint hobs hem hlen _
    simp only [noDetection, Bool.and_eq_true, Bool.not_eq_true'] at hnd
    obtain ⟨h1, h2⟩ := hnd
    have hem0 : (checkStep init o s.track).2.1 = [] := checkStep_no_emit init o s.track h1
    have hstep : pollRun init (o :: l') s = pollRun init l' (pollTick init o s) := rfl
    rcases Decidable.em (l' = []) with h' | h'
    · subst h'
      have ha : s.attempts + 1 = 60 := by simp at hlen; omega
      have ht : pollTick init o s =
          ⟨(checkStep init o s.track).1, false, false, 60, [.timeoutErr]⟩ := by
        simp [pollTick, hint, h1, hem0, hem, ha]
      rw [hstep, ht]
      exact ⟨rfl, rfl, rfl, rfl⟩
    · have hlt : ¬ 60 ≤ s.attempts + 1 := by
        have : 1 ≤ l'.length := by
          cases l' with
          | nil => exact absurd rfl h'
          | cons a b => simp
        simp at hlen
        omega
      have ht : pollTick init o s =
          ⟨(checkStep init o s.track).1, s.observerActive, s.intervalActive,
            s.attempts + 1, s.emitted⟩ := by
        simp [pollTick, hint, h1, hem0, hlt]
      rw [ht] at h2
      rw [hstep, ht]
      exact ih ⟨(checkStep init o s.track).1, s.observerActive, s.intervalActive,
          s.attempts + 1, s.emitted⟩ h2 hint hobs hem (by simp at hlen ⊢; omega) h'

/-- Claim C3.  If no qualifying stabilized reply is detected within 60
one-second polling cycles — along the run, every cycle's check comes back
false, whether because no new assistant message appears, the reply keeps
changing, a shimmer placeholder persists, completion markers are missing, or
the unit stabilizes empty — the polling fallback stops itself, tears down
observation (both the MutationObserver and the interval end up inactive),
and emits exactly the timed-out error outcome to the callback. -/
theorem c3_timeout (init : Nat) (l : List Obs) (hlen : l.length = 60)
    (hnd : noDetection init l detInit = true) :
    (pollRun init l detInit).emitted = [.timeoutErr] ∧
    (pollRun init l detInit).intervalActive = false ∧
    (pollRun init l detInit).observerActive = false := by
  have hne : l ≠ [] := by
    intro h
    rw [h] at hlen
    simp at hlen
  have h := pollRun_times_out init l detInit hnd rfl rfl rfl (by simp [detInit, hlen]) hne
  exact ⟨h.1, h.2.1, h.2.2.1⟩

/-- A 60-cycle window in which a new assistant reply is present but its text
flips between "A" and "B" on every check, so it never stabilizes. -/
def changingWindow : List Obs := (List.replicate 30 [qObs ['A'], qObs ['B']]).flatten

/-- Witness for C3: sixty polling cycles over a reply whose content changes
on every check end in exactly the timeout emission and full teardown. -/
theorem c3_timeout_witness :
    (pollRun 0 changingWindow detInit).emitted = [.timeoutErr] ∧
    (pollRun 0 changingWindow detInit).intervalActive = false ∧
    (pollRun 0 changingWindow detInit).observerActive = false :=
  c3_timeout 0 changingWindow (by decide) (by decide)

/-- Claim C6 (counterexample).  The claim asserts that when the load wait for
a freshly created tab times out, an error result is sent immediately and the
instruction is dropped without forwarding.  In fact, with no matching tab,
successful tab creation, and a load that does NOT complete within the
30-second window, the dispatch still forwards the prompt to the new tab and
sends no error at all: the 30-second fallback timer calls `resolve()`
(background.js 78-81) and processing continues. -/
theorem c6_counterexample :
    handlePrompt ⟨[], some 7, false, true⟩ "req-1" (.str "hi") =
      [.forwardPrompt 7 "req-1" (.obj "hi" none none none)] := rfl

/-- Claim C6 (amended).  When no existing tab matches, the dispatch creates
one and waits at most 30 seconds for it to load; on creation failure it
immediately sends the error result Channel Message for the instruction's id
and stops (no prompt forwarding).  On a load-wait timeout, however, the wait
resolves and the prompt is still forwarded; only a subsequent failure to
reach the content script produces an error result via the sendMessage catch
path. -/
theorem c6_amended :
    (∀ (env : RouterEnv) (id : String) (d : JSData),
      env.tabs = [] → env.createResult = none →
      handlePrompt env id d = [.wsSendError id "Failed to create ChatGPT tab."]) ∧
    (∀ (env : RouterEnv) (id : String) (d : JSData) (t : Nat),
      env.tabs = [] → env.createResult = some t →
      RAction.forwardPrompt t id (normalizeData d) ∈ handlePrompt env id d) := by
  constructor
  · intro env id d h1 h2
    simp [handlePrompt, h1, h2]
  · intro env id d t h1 h2
    simp only [handlePrompt, forwardTo, h1, h2]
    rcases Decidable.em (env.contentReachable = true) with hc | hc
    · simp [hc]
    · simp at hc
      simp [hc]

/-- Witness for the amended C6 at concrete environments: creation failure
yields only the error result; creation success with a timed-out load wait
still forwards. -/
theorem c6_amended_witness :
    handlePrompt ⟨[], none, true, true⟩ "req-2" (.str "hi") =
      [.wsSendError "req-2" "Failed to create ChatGPT tab."] ∧
    RAction.forwardPrompt 7 "req-3" (normalizeData (.str "hi")) ∈
      handlePrompt ⟨[], some 7, false, true⟩ "req-3" (.str "hi") :=
  ⟨c6_amended.1 ⟨[], none, true, true⟩ "req-2" (.str "hi") rfl rfl,
   c6_amended.2 ⟨[], some 7, false, true⟩ "req-3" (.str "hi") 7 rfl rfl⟩

/-- Every closure handling schedules exactly one reconnect with the fixed
5000 ms delay. -/
theorem onClose_one_reconnect (s : GwState) : (onClose s).2.countP isReconnect5000 = 1 := by
  rcases s with ⟨ka⟩
  cases ka <;> decide

/-- Claim C7.  On every WebSocket closure the client clears the keep-alive
timer state (issuing the clear action exactly when a timer was active),
schedules exactly one reconnect attempt with the fixed 5-second delay, and
this repeats without bound: a run of `n` successive closures schedules
exactly `n` reconnect attempts, for every `n`. -/
theorem c7_reconnect :
    (∀ s : GwState, (onClose s).2.countP isReconnect5000 = 1 ∧ (onClose s).1.keepAlive = false) ∧
    GwAction.clearKeepAlive ∈ (onClose ⟨true⟩).2 ∧
    (¬ GwAction.clearKeepAlive ∈ (onClose ⟨false⟩).2) ∧
    (∀ (n : Nat) (s : GwState), (closeTrace n s).countP isReconnect5000 = n) := by
  refine ⟨fun s => ⟨onClose_one_reconnect s, rfl⟩, by decide, by decide, ?_⟩
  intro n
  induction n with
  | zero => intro s; rfl
  | succ m ih =>
    intro s
    simp [closeTrace, List.countP_append, ih, onClose_one_reconnect]
    omega

/-- Claim C8.  `stopObservingResponses` is idempotent: whatever the starting
globals, running it a second time on the state the first run left behind
changes nothing and performs no teardown action (the `if (responseObserver)`
guard makes it a total no-op). -/
theorem c8_teardown_idempotent (s : ContentObsState) :
    stopObservingModel (stopObservingModel s).1 = ((stopObservingModel s).1, []) := by
  rcases s with ⟨ro, rt⟩
  cases ro <;> simp [stopObservingModel]

/-- Claim C10.  A bare-string instruction payload is accepted by both routing
layers: the background layer normalizes it to exactly the object
`{ prompt: s }`, and the content layer extracts from it exactly the same
parameters as from that object form — the prompt `s`, no image, and the
default session flags `startNewChat = true`, `useTemporaryChat = true` — so
processing proceeds identically to the object form. -/
theorem c10_bare_string (s : String) :
    normalizeData (.str s) = .obj s none none none ∧
    contentParams (.str s) = ⟨s, none, true, true⟩ ∧
    contentParams (.str s) = contentParams (.obj s none none none) :=
  ⟨rfl, rfl, rfl⟩

/-- The alphabet lookup inverts the digit-to-character table on all 64
digits. -/
theorem b64Index_b64Char : ∀ n : Nat, n < 64 → b64Index (b64Char n) = some n := by decide

/-- No alphabet character is the padding character. -/
theorem b64Char_ne_pad : ∀ n : Nat, n < 64 → ¬ b64Char n = '=' := by decide

/-- Induction on a byte list in the three-byte groups base64 encoding
processes. -/
def threeChunkInd {motive : List Nat → Prop} (h0 : motive [])
    (h1 : ∀ a, motive [a]) (h2 : ∀ a b, motive [a, b])
    (h3 : ∀ a b c rest, motive rest → motive (a :: b :: c :: rest)) :
    ∀ l, motive l
  | [] => h0
  | [a] => h1 a
  | [a, b] => h2 a b
  | a :: b :: c :: rest => h3 a b c rest (threeChunkInd h0 h1 h2 h3 rest)

/-- Standard base64 decoding inverts the encoding on every byte list. -/
theorem b64_roundtrip (l : List Nat) (h : ∀ b ∈ l, b < 256) :
    b64Decode (b64Encode l) = some l := by
  induction l using threeChunkInd with
  | h0 => rfl
  | h1 a =>
    have ha : a < 256 := h a (by simp)
    have i1 := b64Index_b64Char (a / 4) (by omega)
    have i2 := b64Index_b64Char (a % 4 * 16) (by omega)
    have p1 := b64Char_ne_pad (a / 4) (by omega)
    simp [b64Encode, b64Decode, i1, i2]
    omega
  | h2 a b =>
    have ha : a < 256 := h a (by simp)
    have hb : b < 256 := h b (by simp)
    have i1 := b64Index_b64Char (a / 4) (by omega)
    have i2 := b64Index_b64Char (a % 4 * 16 + b / 16) (by omega)
    have i3 := b64Index_b64Char (b % 16 * 4) (by omega)
    have p3 := b64Char_ne_pad (b % 16 * 4) (by omega)
    simp [b64Encode, b64Decode, i1, i2, i3, p3]
    omega
  | h3 a b c rest ih =>
    have ha : a < 256 := h a (by simp)
    have hb : b < 256 := h b (by simp)
    have hc : c < 256 := h c (by simp)
    have hrest : ∀ x ∈ rest, x < 256 := fun x hx => h x (by simp [hx])
    have i1 := b64Index_b64Char (a / 4) (by omega)
    have i2 := b64Index_b64Char (a % 4 * 16 + b / 16) (by omega)
    have i3 := b64Index_b64Char (b % 16 * 4 + c / 64) (by omega)
    have i4 := b64Index_b64Char (c % 64) (by omega)
    have p3 := b64Char_ne_pad (b % 16 * 4 + c / 64) (by omega)
    have p4 := b64Char_ne_pad (c % 64) (by omega)
    simp [b64Encode, b64Decode, i1, i2, i3, i4, p3, p4, ih hrest]
    refine ⟨by omega, by omega, by omega⟩

/-- Matching a literal character sequence at the front of its own
concatenation with anything succeeds and returns the rest. -/
theorem stripLit_append (p l : List Char) : stripLit p (p ++ l) = some l := by
  induction p with
  | nil => rfl
  | cons c cs ih => simp [stripLit, ih]

/-- `takeWhile`/`dropWhile` over a run of word characters followed by the
`;base64,` marker: the word run is taken whole and the split stops exactly at
the marker's leading `;`. -/
theorem takeWhile_marker (m x : List Char) (hm : ∀ c ∈ m, isWordChar c = true) :
    (m ++ (base64MarkerChars ++ x)).takeWhile isWordChar = m ∧
    (m ++ (base64MarkerChars ++ x)).dropWhile isWordChar = base64MarkerChars ++ x := by
  have ws : isWordChar ';' = false := by decide
  induction m with
  | nil =>
    constructor
    · simp [base64MarkerChars, List.takeWhile_cons, ws]
    · simp [base64MarkerChars, List.dropWhile_cons, ws]
  | cons c cs ih =>
    have hc : isWordChar c = true := hm c (List.mem_cons_self c cs)
    have ihh := ih fun y hy => hm y (List.mem_cons_of_mem _ hy)
    constructor
    · simp [List.takeWhile_cons, hc, ihh.1]
    · simp [List.dropWhile_cons, hc, ihh.2]

/-- Stripping the `data:image/<subtype>;base64,` prefix the `FileReader`
produced recovers the bare payload, for every nonempty subtype made of word
characters (the `\w+` class of the regex at content.js 17). -/
theorem stripDataUrl_word (m x : List Char) (hne : m ≠ [])
    (hm : ∀ c ∈ m, isWordChar c = true) :
    stripDataUrl (dataUrlHeadChars ++ (m ++ (base64MarkerChars ++ x))) = x := by
  have htm := takeWhile_marker m x hm
  cases m with
  | nil => exact absurd rfl hne
  | cons c0 cs =>
    simp only [stripDataUrl, stripLit_append, htm.1, htm.2]

/-- Claim C9 (counterexample).  The claim ranges over every media-bearing
reply, but the strip regex `^data:image\/\w+;base64,` only matches word-class
subtypes: for a fetched blob of type `image/svg+xml` the `+` falls outside
`\w`, the replace strips nothing, and the delivered payload is the entire
data URL — which does not decode to the fetched bytes at all. -/
theorem c9_counterexample :
    downloadImageAsBase64Model ['s', 'v', 'g', '+', 'x', 'm', 'l'] [137] =
      readAsDataURLModel ['s', 'v', 'g', '+', 'x', 'm', 'l'] [137] ∧
    ¬ b64Decode (downloadImageAsBase64Model ['s', 'v', 'g', '+', 'x', 'm', 'l'] [137]) =
        some [137] := by
  constructor <;> decide

/-- Claim C9 (amended).  For every media-bearing reply whose fetched blob has
a MIME subtype made of word characters — the `\w+` class the strip regex
matches, covering the image types in play (png, jpeg, webp, gif) — the
payload `downloadImageAsBase64` delivers (the FileReader's base64 data URL
with its `data:image/<subtype>;base64,` prefix stripped) decodes back to
exactly the fetched bytes: the encoded payload placed alongside the reply
text is a lossless round-trip of the fetched media.  For a subtype outside
that class the prefix is not stripped and no such round-trip holds. -/
theorem c9_media_roundtrip (mimeSub : List Char) (bytes : List Nat)
    (hne : mimeSub ≠ []) (hm : ∀ c ∈ mimeSub, isWordChar c = true)
    (h : ∀ b ∈ bytes, b < 256) :
    b64Decode (downloadImageAsBase64Model mimeSub bytes) = some bytes := by
  have hs : downloadImageAsBase64Model mimeSub bytes = b64Encode bytes := by
    show stripDataUrl (dataUrlHeadChars ++ mimeSub ++ base64MarkerChars ++
        b64Encode bytes) = b64Encode bytes
    rw [List.append_assoc, List.append_assoc]
    exact stripDataUrl_word mimeSub (b64Encode bytes) hne hm
  rw [hs]
  exact b64_roundtrip bytes h

/-- Witness for the amended C9 at subtype `png` and the first bytes of a PNG
header. -/
theorem c9_media_roundtrip_witness :
    b64Decode (downloadImageAsBase64Model ['p', 'n', 'g'] [137, 80, 78, 71, 13, 10]) =
      some [137, 80, 78, 71, 13, 10] :=
  c9_media_roundtrip ['p', 'n', 'g'] [137, 80, 78, 71, 13, 10] (by decide) (by decide)
    (by decide)

end ChatGPTAddon
